import Mathlib

/-!
Shallow embedding of the interactive terminal session bridge of
`src/server/containerlab_server_backend.js` (the `wss.on('connection')`
handler and the per-connection event handlers it installs).

Modelling conventions:
* The per-connection closure variables (`sshClient`, `sshStream`,
  `dockerProcess`) become Boolean fields of a session state `St`
  (only their null/non-null status steers control flow).
* WebSocket payloads are modelled as the JS strings the code actually
  writes (`message.toString()` / `data.toString()`): `ClientMsg.raw`.
  Whether `JSON.parse` succeeds, and the handshake it yields, travel
  with the message (`ClientMsg.parse`), since the code consumes exactly
  that outcome.
* Every externally triggered callback (ws message/close/error, pty
  data/exit/error, ssh error/ready/keyboard-interactive, stream
  data/close, the 10 s connection timer) is an `Event`; the handler
  bodies are translated into the pure step function `step`.
* Effects are recorded in the state: `sent` (every `ws.send` argument,
  in order), `wsCloseCalls` (`ws.close()` invocations), `ptyWrites` /
  `sshWrites` (driver write arguments, in order), `ptyKills` /
  `sshEnds` (driver stop invocations), `spawns` / `connects` / `shells`
  (constructor and shell-request arguments), `authFinishes` (the
  response lists passed to the keyboard-interactive `finish` callback),
  and `driversConstructed`.
-/

namespace ClabBridge

/-- The handshake object destructured by the handler:
`const { nodeName, nodeIp, username, nodeKind } = data;` together with
`data.cols` / `data.rows`.  Absent JSON fields are `none`. -/
structure Handshake where
  nodeName : Option String := none
  nodeIp : Option String := none
  username : Option String := none
  nodeKind : Option String := none
  cols : Option Nat := none
  rows : Option Nat := none
  deriving Repr, DecidableEq

/-- Outcome of `JSON.parse` on the first message: either a handshake
object or a thrown error with its message. -/
inductive ParseResult where
  | ok (h : Handshake)
  | err (msg : String)
  deriving Repr, DecidableEq

/-- A client→server WebSocket payload: the string `message.toString()`
yields, plus what `JSON.parse(message)` would produce on it. -/
structure ClientMsg where
  raw : String
  parse : ParseResult := .err "Unexpected token"
  deriving Repr, DecidableEq

/-- `data.cols || 80`: JS `||` replaces both an absent field and `0`. -/
def colsOrDefault (h : Handshake) : Nat :=
  match h.cols with
  | some c => if c = 0 then 80 else c
  | none => 80

/-- `data.rows || 24`. -/
def rowsOrDefault (h : Handshake) : Nat :=
  match h.rows with
  | some r => if r = 0 then 24 else r
  | none => 24

/-- The options object handed to `pty.spawn` (the `cwd`/`env` fields are
taken from the process environment and carry no session information). -/
structure PtyOptions where
  name : String
  cols : Nat
  rows : Nat
  deriving Repr, DecidableEq

/-- One `pty.spawn` invocation: command, argument vector (an element is
`none` where the JS array holds `undefined`), and options. -/
structure SpawnRecord where
  cmd : String
  args : List (Option String)
  opts : PtyOptions
  deriving Repr, DecidableEq

/-- `pty.spawn('docker', ['exec', '-it', nodeName, 'sh'], {...})`. -/
def dockerSpawn (h : Handshake) : SpawnRecord :=
  { cmd := "docker"
    args := [some "exec", some "-it", h.nodeName, some "sh"]
    opts := { name := "xterm-256color", cols := colsOrDefault h, rows := rowsOrDefault h } }

/-- `pty.spawn('ssh', [..., 'admin@' + nodeName], {...})`; JS string
concatenation renders `undefined` as the text "undefined". -/
def sonicSpawn (h : Handshake) : SpawnRecord :=
  { cmd := "ssh"
    args := [some "-o", some "StrictHostKeyChecking=no",
             some "-o", some "UserKnownHostsFile=/dev/null",
             some ("admin@" ++ (match h.nodeName with | some n => n | none => "undefined"))]
    opts := { name := "xterm-256color", cols := colsOrDefault h, rows := rowsOrDefault h } }

/-- The options object passed to `sshClient.connect`. -/
structure SshConnectOptions where
  host : Option String
  username : String
  tryKeyboard : Bool
  readyTimeout : Nat
  deriving Repr, DecidableEq

/-- `sshClient.connect({ host: nodeIp, username: 'admin', tryKeyboard:
true, readyTimeout: 10000, ... })`. -/
def deviceConnect (h : Handshake) : SshConnectOptions :=
  { host := h.nodeIp, username := "admin", tryKeyboard := true, readyTimeout := 10000 }

/-- The options object passed to `sshClient.shell`; `cols`/`rows` are
`none` when the JS object carries no such properties. -/
structure ShellOptions where
  term : String
  cols : Option Nat := none
  rows : Option Nat := none
  deriving Repr, DecidableEq

/-- `sshClient.shell({ term: 'xterm-256color' }, cb)`: only the
terminal type, no geometry. -/
def deviceShellOpts : ShellOptions := { term := "xterm-256color" }

/-- `ws.send('\r\n\x1b[31mError: ' + msg + '\x1b[0m')` as produced by
the template literals in the error handlers. -/
def errDiag (msg : String) : String := "\r\n\x1b[31mError: " ++ msg ++ "\x1b[0m"

/-- The fixed exit notice `'\r\n\x1b[31mConnection closed\x1b[0m'`. -/
def exitNotice : String := "\r\n\x1b[31mConnection closed\x1b[0m"

/-- The timeout diagnostic sent by the `connectionTimeout` callback. -/
def timeoutDiag : String := errDiag "Connection timeout"

/-- The diagnostic of the `sshClient.shell` error branch. -/
def shellFailDiag : String := errDiag "Failed to create shell"

/-- Per-connection session state: the closure variables of the
`wss.on('connection')` handler plus the recorded effects. -/
structure St where
  sshClientActive : Bool := false
  sshStream : Bool := false
  dockerProcess : Bool := false
  timeoutArmed : Bool := false
  sent : List String := []
  wsCloseCalls : Nat := 0
  ptyWrites : List String := []
  sshWrites : List String := []
  ptyKills : Nat := 0
  sshEnds : Nat := 0
  driversConstructed : Nat := 0
  spawns : List SpawnRecord := []
  connects : List SshConnectOptions := []
  shells : List ShellOptions := []
  authFinishes : List (List String) := []
  deriving Repr, DecidableEq

/-- The initial state of a fresh connection: all closure variables
null, no effects recorded. -/
def initSt : St := {}

/-- Externally triggered callbacks of one connection.  Payload data
(chunk contents, error messages, exit codes, whether the TCP socket was
established when the timer fired) is environment-chosen and travels on
the event. -/
inductive Event where
  | wsMessage (m : ClientMsg)
  | wsClose
  | wsError
  | ptyData (s : String)
  | ptyExit (exitCode : Int) (signal : Option Nat)
  | ptyError (msg : String)
  | sshError (msg : String)
  | sshKeyboardInteractive (prompts : List String)
  | sshReady (shellErr : Option String)
  | sshStreamData (s : String)
  | sshStreamClose
  | connTimeout (sockEstablished : Bool)
  deriving Repr, DecidableEq

/-- The handshake branch of the `ws.on('message')` handler: runs only
when neither `sshStream` nor `dockerProcess` is set.  `JSON.parse`
failure lands in the catch branch, which sends one diagnostic and
leaves everything else untouched.  A parsed handshake is dispatched on
`nodeKind`: `'linux'` and `'sonic-vm'` spawn a pty; *everything else*
falls into the SSH/device branch, which constructs a `Client`, starts
`connect`, and arms the 10 s connection timer. -/
def handleHandshake (st : St) (m : ClientMsg) : St :=
  match m.parse with
  | .err e => { st with sent := st.sent ++ [errDiag e] }
  | .ok h =>
    if h.nodeKind = some "linux" then
      { st with dockerProcess := true
                driversConstructed := st.driversConstructed + 1
                spawns := st.spawns ++ [dockerSpawn h] }
    else if h.nodeKind = some "sonic-vm" then
      { st with dockerProcess := true
                driversConstructed := st.driversConstructed + 1
                spawns := st.spawns ++ [sonicSpawn h] }
    else
      { st with sshClientActive := true
                timeoutArmed := true
                driversConstructed := st.driversConstructed + 1
                connects := st.connects ++ [deviceConnect h] }

/-- One step of the event-driven handler code, translated clause by
clause:

* `wsMessage`: `if (sshStream) { sshStream.write(message.toString()); return; }
  else if (dockerProcess) { dockerProcess.write(...); return; }` else the
  handshake branch.
* `wsClose` / `wsError`: `if (sshClient) sshClient.end(); else if
  (dockerProcess) dockerProcess.kill();` — neither variable is nulled.
* `ptyData` / `ptyExit` / `ptyError`: the handlers installed on the
  spawned pty (exit and error send a notice and call `ws.close()`).
* `sshError`: `ws.send` of the diagnostic only — no close, no end.
* `sshKeyboardInteractive`: `finish(prompts.map(() => 'admin'))`.
* `sshReady`: `clearTimeout(connectionTimeout)` then `sshClient.shell`;
  on shell error a diagnostic and `return`; on success `sshStream = stream`.
* `sshStreamData`: `ws.send(data.toString())`.
* `sshStreamClose`: `sshClient.end(); sshStream = null;` — no notice,
  no `ws.close()`, `sshClient` stays set.
* `connTimeout`: the timer body `if (sshClient && !sshClient._sock)`
  sends the timeout diagnostic and calls `sshClient.end()`; the timer
  only runs while armed (not yet cleared by `ready`). -/
def step (st : St) : Event → St
  | .wsMessage m =>
    if st.sshStream then { st with sshWrites := st.sshWrites ++ [m.raw] }
    else if st.dockerProcess then { st with ptyWrites := st.ptyWrites ++ [m.raw] }
    else handleHandshake st m
  | .wsClose =>
    if st.sshClientActive then { st with sshEnds := st.sshEnds + 1 }
    else if st.dockerProcess then { st with ptyKills := st.ptyKills + 1 }
    else st
  | .wsError =>
    if st.sshClientActive then { st with sshEnds := st.sshEnds + 1 }
    else if st.dockerProcess then { st with ptyKills := st.ptyKills + 1 }
    else st
  | .ptyData s =>
    if st.dockerProcess then { st with sent := st.sent ++ [s] } else st
  | .ptyExit _ _ =>
    if st.dockerProcess then
      { st with sent := st.sent ++ [exitNotice], wsCloseCalls := st.wsCloseCalls + 1 }
    else st
  | .ptyError msg =>
    if st.dockerProcess then
      { st with sent := st.sent ++ [errDiag msg], wsCloseCalls := st.wsCloseCalls + 1 }
    else st
  | .sshError msg =>
    if st.sshClientActive then { st with sent := st.sent ++ [errDiag msg] } else st
  | .sshKeyboardInteractive prompts =>
    if st.sshClientActive then
      { st with authFinishes := st.authFinishes ++ [prompts.map (fun _ => "admin")] }
    else st
  | .sshReady shellErr =>
    if st.sshClientActive then
      match shellErr with
      | some _ => { st with timeoutArmed := false, sent := st.sent ++ [shellFailDiag] }
      | none => { st with timeoutArmed := false, sshStream := true
                          shells := st.shells ++ [deviceShellOpts] }
    else st
  | .sshStreamData s =>
    if st.sshStream then { st with sent := st.sent ++ [s] } else st
  | .sshStreamClose =>
    if st.sshStream then { st with sshEnds := st.sshEnds + 1, sshStream := false }
    else st
  | .connTimeout sock =>
    if st.timeoutArmed && st.sshClientActive && !sock then
      { st with timeoutArmed := false, sent := st.sent ++ [timeoutDiag]
                sshEnds := st.sshEnds + 1 }
    else st

/-- Run a connection from the initial state over a sequence of events. -/
def run (evs : List Event) : St := evs.foldl step initSt

/-- Total number of driver stop invocations (`dockerProcess.kill()`
plus `sshClient.end()`). -/
def stops (st : St) : Nat := st.ptyKills + st.sshEnds

/-- Steady-state relay traffic: a payload from the client or a data
chunk emitted by the driver. -/
inductive RelayEv where
  | fromClient (m : ClientMsg)
  | fromDriver (s : String)
  deriving Repr, DecidableEq

/-- The callback a relay event triggers; `ssh = true` for a device
(SSH-stream) session, `false` for a pty (container/vm) session. -/
def relayEvent (ssh : Bool) : RelayEv → Event
  | .fromClient m => .wsMessage m
  | .fromDriver s => if ssh then .sshStreamData s else .ptyData s

/-- The client payloads of a relay trace, in order. -/
def clientPayloads : List RelayEv → List String
  | [] => []
  | .fromClient m :: rest => m.raw :: clientPayloads rest
  | .fromDriver _ :: rest => clientPayloads rest

/-- The driver chunks of a relay trace, in order. -/
def driverPayloads : List RelayEv → List String
  | [] => []
  | .fromClient _ :: rest => driverPayloads rest
  | .fromDriver s :: rest => s :: driverPayloads rest

/-- The write arguments received by the session's driver. -/
def driverWrites (ssh : Bool) (st : St) : List String :=
  if ssh then st.sshWrites else st.ptyWrites

/-- An ACTIVE session in the given mode: the device mode has
`sshStream` set (checked first by every handler), the pty mode has
`dockerProcess` set and no SSH stream. -/
def activeMode (ssh : Bool) (st : St) : Prop :=
  if ssh then st.sshStream = true
  else st.sshStream = false ∧ st.dockerProcess = true

/-- A pty-mode ACTIVE state used to witness C1. -/
def wSt : St := { initSt with dockerProcess := true }

/-- Sample relay trace: client sends "ls\n", driver answers, client
sends again. -/
def wEvs : List RelayEv :=
  [.fromClient { raw := "ls\n" }, .fromDriver "bin  etc\r\n", .fromClient { raw := "pwd\n" }]

/-- A container handshake as parsed from
`{"nodeName":"r1","nodeKind":"linux"}`. -/
def linuxHandshake : Handshake := { nodeName := some "r1", nodeKind := some "linux" }

/-- The container handshake message. -/
def msgLinux : ClientMsg :=
  { raw := "\x7b\"nodeName\":\"r1\",\"nodeKind\":\"linux\"\x7d", parse := .ok linuxHandshake }

/-- A device handshake with an address and an explicit 120×40 geometry. -/
def deviceHandshake : Handshake :=
  { nodeIp := some "10.0.0.5", nodeKind := some "device", cols := some 120, rows := some 40 }

/-- The device handshake message. -/
def msgDevice : ClientMsg :=
  { raw := "\x7b\"nodeIp\":\"10.0.0.5\",\"nodeKind\":\"device\",\"cols\":120,\"rows\":40\x7d"
    parse := .ok deviceHandshake }

/-- A device handshake that carries no `nodeIp` at all. -/
def deviceNoIpHandshake : Handshake := { nodeKind := some "device" }

/-- The address-less device handshake message. -/
def msgDeviceNoIp : ClientMsg :=
  { raw := "\x7b\"nodeKind\":\"device\"\x7d", parse := .ok deviceNoIpHandshake }

/-- One relay event in an ACTIVE session: a client payload is appended
verbatim to the driver's writes, a driver chunk is appended verbatim to
`sent`, nothing else changes, and the mode is preserved. -/
theorem step_relay (ssh : Bool) (st : St) (ev : RelayEv) (hm : activeMode ssh st) :
    driverWrites ssh (step st (relayEvent ssh ev))
        = driverWrites ssh st ++ clientPayloads [ev] ∧
    (step st (relayEvent ssh ev)).sent = st.sent ++ driverPayloads [ev] ∧
    activeMode ssh (step st (relayEvent ssh ev)) := by
  cases ssh with
  | true =>
    simp only [activeMode, if_true] at hm
    cases ev with
    | fromClient m =>
      simp [relayEvent, step, hm, driverWrites, clientPayloads, driverPayloads, activeMode]
    | fromDriver s =>
      simp [relayEvent, step, hm, driverWrites, clientPayloads, driverPayloads, activeMode]
  | false =>
    simp only [activeMode, if_false] at hm
    obtain ⟨h1, h2⟩ := hm
    cases ev with
    | fromClient m =>
      simp [relayEvent, step, h1, h2, driverWrites, clientPayloads, driverPayloads, activeMode]
    | fromDriver s =>
      simp [relayEvent, step, h1, h2, driverWrites, clientPayloads, driverPayloads, activeMode]

/-- Claim C1: relay byte-transparency.  For every session in the
ACTIVE state (device mode with `sshStream` set, or pty mode with
`dockerProcess` set), folding any interleaved trace of client payloads
and driver chunks delivers exactly the client payloads to the driver's
write operation, unmodified and in send order, and exactly the driver
chunks to the client, unmodified and in emission order — no framing,
line buffering, or transformation — and the session stays ACTIVE. -/
theorem C1_relay_byte_transparency (ssh : Bool) (evs : List RelayEv) (st : St) (hm : activeMode ssh st) :
    driverWrites ssh ((evs.map (relayEvent ssh)).foldl step st)
        = driverWrites ssh st ++ clientPayloads evs ∧
    ((evs.map (relayEvent ssh)).foldl step st).sent = st.sent ++ driverPayloads evs ∧
    activeMode ssh ((evs.map (relayEvent ssh)).foldl step st) := by
  induction evs generalizing st with
  | nil => simpa [clientPayloads, driverPayloads] using hm
  | cons ev rest ih =>
    obtain ⟨w1, s1, m1⟩ := step_relay ssh st ev hm
    obtain ⟨w2, s2, m2⟩ := ih (step st (relayEvent ssh ev)) m1
    refine ⟨?_, ?_, m2⟩
    · rw [List.map_cons, List.foldl_cons, w2, w1]
      cases ev <;> simp [clientPayloads]
    · rw [List.map_cons, List.foldl_cons, s2, s1]
      cases ev <;> simp [driverPayloads]

/-- Witness for C1 at a concrete ACTIVE pty session and trace. -/
theorem C1_relay_byte_transparency_witness :
    activeMode false wSt ∧
    (driverWrites false ((wEvs.map (relayEvent false)).foldl step wSt)
        = driverWrites false wSt ++ clientPayloads wEvs ∧
      ((wEvs.map (relayEvent false)).foldl step wSt).sent = wSt.sent ++ driverPayloads wEvs ∧
      activeMode false ((wEvs.map (relayEvent false)).foldl step wSt)) :=
  ⟨⟨rfl, rfl⟩, C1_relay_byte_transparency false wEvs wSt ⟨rfl, rfl⟩⟩

/-- Claim C7: fixed authentication response policy.  A
keyboard-interactive challenge with any number of prompts and any
prompt texts is answered by one `finish` call carrying exactly one
response per prompt, each response the fixed administrative password
"admin"; nothing is sent to the client and the connection is not
touched. -/
theorem C7_fixed_auth_responses (st : St) (prompts : List String)
    (hc : st.sshClientActive = true) :
    (step st (.sshKeyboardInteractive prompts)).authFinishes
        = st.authFinishes ++ [List.replicate prompts.length "admin"] ∧
    (step st (.sshKeyboardInteractive prompts)).sent = st.sent ∧
    (step st (.sshKeyboardInteractive prompts)).wsCloseCalls = st.wsCloseCalls ∧
    (step st (.sshKeyboardInteractive prompts)).sshWrites = st.sshWrites := by
  simp [step, hc]

/-- Witness for C7: a two-prompt challenge against a connecting device
session. -/
theorem C7_fixed_auth_responses_witness :
    ({ initSt with sshClientActive := true } : St).sshClientActive = true ∧
    ((step { initSt with sshClientActive := true }
        (.sshKeyboardInteractive ["Password:", "Verification code:"])).authFinishes
        = ({ initSt with sshClientActive := true } : St).authFinishes
            ++ [List.replicate (["Password:", "Verification code:"] : List String).length "admin"] ∧
      (step { initSt with sshClientActive := true }
        (.sshKeyboardInteractive ["Password:", "Verification code:"])).sent
        = ({ initSt with sshClientActive := true } : St).sent ∧
      (step { initSt with sshClientActive := true }
        (.sshKeyboardInteractive ["Password:", "Verification code:"])).wsCloseCalls
        = ({ initSt with sshClientActive := true } : St).wsCloseCalls ∧
      (step { initSt with sshClientActive := true }
        (.sshKeyboardInteractive ["Password:", "Verification code:"])).sshWrites
        = ({ initSt with sshClientActive := true } : St).sshWrites) :=
  ⟨rfl, C7_fixed_auth_responses { initSt with sshClientActive := true }
      ["Password:", "Verification code:"] rfl⟩

/-- Claim C10: the handshake kind is never validated against the
three-value enum.  Whenever no driver exists yet and a message parses
to a handshake whose `nodeKind` is neither `"linux"` nor `"sonic-vm"`
(including an absent or arbitrary kind), the handler silently takes the
SSH/device branch: it constructs the SSH client, arms the connection
timer, and attempts `connect` with whatever `nodeIp` the handshake
carried (possibly absent) — no diagnostic, no rejection. -/
theorem C10_kind_not_validated (st : St) (m : ClientMsg) (h : Handshake)
    (hs : st.sshStream = false) (hd : st.dockerProcess = false)
    (hm : m.parse = .ok h)
    (hk1 : h.nodeKind ≠ some "linux") (hk2 : h.nodeKind ≠ some "sonic-vm") :
    step st (.wsMessage m) =
      { st with sshClientActive := true
                timeoutArmed := true
                driversConstructed := st.driversConstructed + 1
                connects := st.connects ++ [deviceConnect h] } := by
  simp [step, hs, hd, handleHandshake, hm, hk1, hk2]

/-- Witness for C10: a handshake with an unknown kind "ceos" and no
address is routed to the SSH branch with `host := none`. -/
theorem C10_kind_not_validated_witness :
    (initSt.sshStream = false ∧ initSt.dockerProcess = false) ∧
    step initSt (.wsMessage { raw := "x", parse := .ok { nodeKind := some "ceos" } }) =
      { initSt with sshClientActive := true
                    timeoutArmed := true
                    driversConstructed := initSt.driversConstructed + 1
                    connects := initSt.connects
                        ++ [deviceConnect { nodeKind := some "ceos" }] } :=
  ⟨⟨rfl, rfl⟩,
    C10_kind_not_validated initSt { raw := "x", parse := .ok { nodeKind := some "ceos" } }
      { nodeKind := some "ceos" } rfl rfl rfl (by decide) (by decide)⟩

/-- Claim C2 is false as stated: the teardown handlers never clear the
driver references, so a pty exit racing a pty error invokes `ws.close`
twice, and a client connection error followed by the close event
invokes `dockerProcess.kill()` twice — the stop operation is not
invoked at most once. -/
theorem C2_teardown_counterexample :
    stops (run [.wsMessage msgLinux, .ptyExit 1 none, .ptyError "EIO",
                .wsError, .wsClose]) = 2 ∧
    (run [.wsMessage msgLinux, .ptyExit 1 none, .ptyError "EIO",
          .wsError, .wsClose]).wsCloseCalls = 2 ∧
    ¬(stops (run [.wsMessage msgLinux, .ptyExit 1 none, .ptyError "EIO",
                  .wsError, .wsClose]) ≤ 1 ∧
      (run [.wsMessage msgLinux, .ptyExit 1 none, .ptyError "EIO",
            .wsError, .wsClose]).wsCloseCalls ≤ 1) := by decide

/-- Claim C2 (amended): each single teardown trigger invokes the
driver's stop operation at most once and the client-close call at most
once per firing; since the driver references are never cleared,
distinct triggers are not deduplicated against each other, so a
combination of triggers can invoke either path more than once. -/
theorem C2_stop_close_per_trigger (st : St) (ev : Event) :
    stops (step st ev) ≤ stops st + 1 ∧
    (step st ev).wsCloseCalls ≤ st.wsCloseCalls + 1 := by
  cases ev with
  | wsMessage m =>
    obtain ⟨raw, p⟩ := m
    cases p with
    | err e => simp only [step, handleHandshake]; split_ifs <;> simp [stops]
    | ok h => simp only [step, handleHandshake]; split_ifs <;> simp [stops]
  | wsClose => simp only [step]; split_ifs <;> simp [stops] <;> omega
  | wsError => simp only [step]; split_ifs <;> simp [stops] <;> omega
  | ptyData s => simp only [step]; split_ifs <;> simp [stops]
  | ptyExit c sg => simp only [step]; split_ifs <;> simp [stops]
  | ptyError msg => simp only [step]; split_ifs <;> simp [stops]
  | sshError msg => simp only [step]; split_ifs <;> simp [stops]
  | sshKeyboardInteractive prompts =>
    simp only [step]; split_ifs <;> simp [stops]
  | sshReady shellErr =>
    cases shellErr <;> (simp only [step]; split_ifs <;> simp [stops])
  | sshStreamData s => simp only [step]; split_ifs <;> simp [stops]
  | sshStreamClose =>
    simp only [step]; split_ifs <;> simp [stops]
    omega
  | connTimeout sock => simp only [step]; split_ifs <;> simp [stops] <;> omega

/-- Claim C3 is false as stated: an SSH connection error (a fatal
driver start failure) is reported as a diagnostic, but the client
connection is never closed and the SSH client is never ended — the
session is left open and the driver running. -/
theorem C3_ssh_error_counterexample :
    (run [.wsMessage msgDevice, .sshError "connect ECONNREFUSED"]).sent
        = [errDiag "connect ECONNREFUSED"] ∧
    (run [.wsMessage msgDevice, .sshError "connect ECONNREFUSED"]).wsCloseCalls = 0 ∧
    (run [.wsMessage msgDevice, .sshError "connect ECONNREFUSED"]).sshEnds = 0 ∧
    ¬(1 ≤ (run [.wsMessage msgDevice, .sshError "connect ECONNREFUSED"]).wsCloseCalls) := by
  decide

/-- Claim C3 (amended): a pty driver error sends one diagnostic and
closes the client connection, but an SSH connection error and an SSH
shell-creation failure only send their diagnostic — they neither close
the client connection nor end the SSH client, leaving the session open
and the driver running. -/
theorem C3_fatal_error_paths (st : St) (msg : String)
    (hp : st.dockerProcess = true) (hc : st.sshClientActive = true) :
    (step st (.ptyError msg)).sent = st.sent ++ [errDiag msg] ∧
    (step st (.ptyError msg)).wsCloseCalls = st.wsCloseCalls + 1 ∧
    (step st (.sshError msg)).sent = st.sent ++ [errDiag msg] ∧
    (step st (.sshError msg)).wsCloseCalls = st.wsCloseCalls ∧
    (step st (.sshError msg)).sshEnds = st.sshEnds ∧
    (step st (.sshReady (some msg))).sent = st.sent ++ [shellFailDiag] ∧
    (step st (.sshReady (some msg))).wsCloseCalls = st.wsCloseCalls ∧
    (step st (.sshReady (some msg))).sshEnds = st.sshEnds := by
  simp [step, hp, hc]

/-- Witness for the amended C3 at a session holding both a pty process
and an SSH client. -/
theorem C3_fatal_error_paths_witness :
    (({ initSt with dockerProcess := true, sshClientActive := true } : St).dockerProcess = true ∧
      ({ initSt with dockerProcess := true, sshClientActive := true } : St).sshClientActive = true) ∧
    ((step { initSt with dockerProcess := true, sshClientActive := true } (.ptyError "EIO")).sent
        = ({ initSt with dockerProcess := true, sshClientActive := true } : St).sent ++ [errDiag "EIO"] ∧
      (step { initSt with dockerProcess := true, sshClientActive := true } (.ptyError "EIO")).wsCloseCalls
        = ({ initSt with dockerProcess := true, sshClientActive := true } : St).wsCloseCalls + 1 ∧
      (step { initSt with dockerProcess := true, sshClientActive := true } (.sshError "EIO")).sent
        = ({ initSt with dockerProcess := true, sshClientActive := true } : St).sent ++ [errDiag "EIO"] ∧
      (step { initSt with dockerProcess := true, sshClientActive := true } (.sshError "EIO")).wsCloseCalls
        = ({ initSt with dockerProcess := true, sshClientActive := true } : St).wsCloseCalls ∧
      (step { initSt with dockerProcess := true, sshClientActive := true } (.sshError "EIO")).sshEnds
        = ({ initSt with dockerProcess := true, sshClientActive := true } : St).sshEnds ∧
      (step { initSt with dockerProcess := true, sshClientActive := true } (.sshReady (some "EIO"))).sent
        = ({ initSt with dockerProcess := true, sshClientActive := true } : St).sent ++ [shellFailDiag] ∧
      (step { initSt with dockerProcess := true, sshClientActive := true } (.sshReady (some "EIO"))).wsCloseCalls
        = ({ initSt with dockerProcess := true, sshClientActive := true } : St).wsCloseCalls ∧
      (step { initSt with dockerProcess := true, sshClientActive := true } (.sshReady (some "EIO"))).sshEnds
        = ({ initSt with dockerProcess := true, sshClientActive := true } : St).sshEnds) :=
  ⟨⟨rfl, rfl⟩,
    C3_fatal_error_paths { initSt with dockerProcess := true, sshClientActive := true }
      "EIO" rfl rfl⟩

/-- Claim C4 is false as stated: when the device connection attempt
never completes, the 10 s timer sends the timeout diagnostic and ends
the SSH client, and ACTIVE is never entered, but the client connection
is never closed — the session does not reach CLOSED. -/
theorem C4_timeout_counterexample :
    (run [.wsMessage msgDevice, .connTimeout false]).sent = [timeoutDiag] ∧
    (run [.wsMessage msgDevice, .connTimeout false]).sshEnds = 1 ∧
    (run [.wsMessage msgDevice, .connTimeout false]).sshStream = false ∧
    (run [.wsMessage msgDevice, .connTimeout false]).wsCloseCalls = 0 ∧
    ¬(1 ≤ (run [.wsMessage msgDevice, .connTimeout false]).wsCloseCalls) := by decide

/-- Claim C4 (amended): for a device session whose connection attempt
has not completed, the bounded 10-second timer (the `connect` call also
carries `readyTimeout` 10000 ms) sends a timeout diagnostic to the
client and ends the SSH client, and the ACTIVE state is never entered —
but the client connection is left open rather than closed. -/
theorem C4_timeout_behavior (st : St) (h : Handshake)
    (h1 : st.sshClientActive = true) (h2 : st.timeoutArmed = true)
    (h3 : st.sshStream = false) :
    (step st (.connTimeout false)).sent = st.sent ++ [timeoutDiag] ∧
    (step st (.connTimeout false)).sshEnds = st.sshEnds + 1 ∧
    (step st (.connTimeout false)).sshStream = false ∧
    (step st (.connTimeout false)).wsCloseCalls = st.wsCloseCalls ∧
    (deviceConnect h).readyTimeout = 10000 := by
  simp [step, h1, h2, h3, deviceConnect]

/-- Witness for the amended C4 at the state right after a device
handshake. -/
theorem C4_timeout_behavior_witness :
    ((run [.wsMessage msgDevice]).sshClientActive = true ∧
      (run [.wsMessage msgDevice]).timeoutArmed = true ∧
      (run [.wsMessage msgDevice]).sshStream = false) ∧
    ((step (run [.wsMessage msgDevice]) (.connTimeout false)).sent
        = (run [.wsMessage msgDevice]).sent ++ [timeoutDiag] ∧
      (step (run [.wsMessage msgDevice]) (.connTimeout false)).sshEnds
        = (run [.wsMessage msgDevice]).sshEnds + 1 ∧
      (step (run [.wsMessage msgDevice]) (.connTimeout false)).sshStream = false ∧
      (step (run [.wsMessage msgDevice]) (.connTimeout false)).wsCloseCalls
        = (run [.wsMessage msgDevice]).wsCloseCalls ∧
      (deviceConnect deviceHandshake).readyTimeout = 10000) :=
  ⟨⟨by decide, by decide, by decide⟩,
    C4_timeout_behavior (run [.wsMessage msgDevice]) deviceHandshake
      (by decide) (by decide) (by decide)⟩

/-- Claim C5 is false as stated: a handshake with `targetKind`
"device" but no `targetAddress` is not rejected — no diagnostic is
sent, and a driver *is* constructed: the SSH client is created and
`connect` is attempted with no host. -/
theorem C5_validation_counterexample :
    (run [.wsMessage msgDeviceNoIp]).driversConstructed = 1 ∧
    (run [.wsMessage msgDeviceNoIp]).sent = [] ∧
    (run [.wsMessage msgDeviceNoIp]).connects
        = [{ host := none, username := "admin", tryKeyboard := true, readyTimeout := 10000 }] ∧
    ¬((run [.wsMessage msgDeviceNoIp]).driversConstructed = 0) := by decide

/-- Claim C5 (amended): a payload that fails to parse yields a single
diagnostic, no driver, and the connection stays open for a retry; but
required fields are never validated — a device handshake missing the
address silently constructs the SSH driver and attempts a connection
with no host. -/
theorem C5_handshake_paths (st : St) (m bad : ClientMsg) (e : String) (h : Handshake)
    (hs : st.sshStream = false) (hd : st.dockerProcess = false)
    (hbad : bad.parse = .err e)
    (hm : m.parse = .ok h) (hk : h.nodeKind = some "device") (hip : h.nodeIp = none) :
    ((step st (.wsMessage bad)).sent = st.sent ++ [errDiag e] ∧
      (step st (.wsMessage bad)).driversConstructed = st.driversConstructed ∧
      (step st (.wsMessage bad)).wsCloseCalls = st.wsCloseCalls) ∧
    ((step st (.wsMessage m)).driversConstructed = st.driversConstructed + 1 ∧
      (step st (.wsMessage m)).connects = st.connects
          ++ [{ host := none, username := "admin", tryKeyboard := true, readyTimeout := 10000 }] ∧
      (step st (.wsMessage m)).sent = st.sent) := by
  constructor
  · simp [step, hs, hd, handleHandshake, hbad]
  · simp [step, hs, hd, handleHandshake, hm, hk, deviceConnect, hip]

/-- Witness for the amended C5 on a fresh connection. -/
theorem C5_handshake_paths_witness :
    (initSt.sshStream = false ∧ initSt.dockerProcess = false ∧
      ({ raw := "notjson", parse := .err "Unexpected token" } : ClientMsg).parse
          = .err "Unexpected token" ∧
      msgDeviceNoIp.parse = .ok deviceNoIpHandshake ∧
      deviceNoIpHandshake.nodeKind = some "device" ∧ deviceNoIpHandshake.nodeIp = none) ∧
    (((step initSt (.wsMessage { raw := "notjson", parse := .err "Unexpected token" })).sent
          = initSt.sent ++ [errDiag "Unexpected token"] ∧
        (step initSt (.wsMessage { raw := "notjson", parse := .err "Unexpected token" })).driversConstructed
          = initSt.driversConstructed ∧
        (step initSt (.wsMessage { raw := "notjson", parse := .err "Unexpected token" })).wsCloseCalls
          = initSt.wsCloseCalls) ∧
      ((step initSt (.wsMessage msgDeviceNoIp)).driversConstructed
          = initSt.driversConstructed + 1 ∧
        (step initSt (.wsMessage msgDeviceNoIp)).connects = initSt.connects
            ++ [{ host := none, username := "admin", tryKeyboard := true, readyTimeout := 10000 }] ∧
        (step initSt (.wsMessage msgDeviceNoIp)).sent = initSt.sent)) :=
  ⟨⟨rfl, rfl, rfl, rfl, rfl, rfl⟩,
    C5_handshake_paths initSt msgDeviceNoIp
      { raw := "notjson", parse := .err "Unexpected token" } "Unexpected token"
      deviceNoIpHandshake rfl rfl rfl rfl rfl rfl⟩

/-- Claim C6 is false as stated: a device session that reached ACTIVE
and whose shell channel then closes receives no diagnostic at all, and
the client connection is never closed — only the SSH client is ended. -/
theorem C6_exit_notice_counterexample :
    (run [.wsMessage msgDevice, .sshReady none]).sshStream = true ∧
    (run [.wsMessage msgDevice, .sshReady none, .sshStreamClose]).sent = [] ∧
    (run [.wsMessage msgDevice, .sshReady none, .sshStreamClose]).wsCloseCalls = 0 ∧
    (run [.wsMessage msgDevice, .sshReady none, .sshStreamClose]).sshEnds = 1 ∧
    ¬((run [.wsMessage msgDevice, .sshReady none, .sshStreamClose]).sent.length = 1) := by
  decide

/-- Claim C6 (amended): when a pty driver (container/vm) exits, the
client receives exactly one exit notice and the connection close is
invoked; but when a device shell channel closes, the SSH client is
ended silently — no diagnostic is sent and the client connection is
not closed. -/
theorem C6_exit_paths (st : St) (code : Int) (sig : Option Nat)
    (hp : st.dockerProcess = true) (hs : st.sshStream = true) :
    (step st (.ptyExit code sig)).sent = st.sent ++ [exitNotice] ∧
    (step st (.ptyExit code sig)).wsCloseCalls = st.wsCloseCalls + 1 ∧
    (step st .sshStreamClose).sent = st.sent ∧
    (step st .sshStreamClose).wsCloseCalls = st.wsCloseCalls ∧
    (step st .sshStreamClose).sshEnds = st.sshEnds + 1 ∧
    (step st .sshStreamClose).sshStream = false := by
  simp [step, hp, hs]

/-- Witness for the amended C6 at a session holding both an active pty
and an active SSH stream. -/
theorem C6_exit_paths_witness :
    (({ initSt with dockerProcess := true, sshStream := true } : St).dockerProcess = true ∧
      ({ initSt with dockerProcess := true, sshStream := true } : St).sshStream = true) ∧
    ((step { initSt with dockerProcess := true, sshStream := true } (.ptyExit 1 none)).sent
        = ({ initSt with dockerProcess := true, sshStream := true } : St).sent ++ [exitNotice] ∧
      (step { initSt with dockerProcess := true, sshStream := true } (.ptyExit 1 none)).wsCloseCalls
        = ({ initSt with dockerProcess := true, sshStream := true } : St).wsCloseCalls + 1 ∧
      (step { initSt with dockerProcess := true, sshStream := true } .sshStreamClose).sent
        = ({ initSt with dockerProcess := true, sshStream := true } : St).sent ∧
      (step { initSt with dockerProcess := true, sshStream := true } .sshStreamClose).wsCloseCalls
        = ({ initSt with dockerProcess := true, sshStream := true } : St).wsCloseCalls ∧
      (step { initSt with dockerProcess := true, sshStream := true } .sshStreamClose).sshEnds
        = ({ initSt with dockerProcess := true, sshStream := true } : St).sshEnds + 1 ∧
      (step { initSt with dockerProcess := true, sshStream := true } .sshStreamClose).sshStream
        = false) :=
  ⟨⟨rfl, rfl⟩,
    C6_exit_paths { initSt with dockerProcess := true, sshStream := true } 1 none rfl rfl⟩

/-- Claim C8 is false as stated: after a device handshake has been
accepted and its SSH driver constructed, but before the shell channel
is ready, a further inbound message is parsed as a handshake again and
constructs a second driver on the same connection. -/
theorem C8_second_driver_counterexample :
    (run [.wsMessage msgDevice, .wsMessage msgLinux]).driversConstructed = 2 ∧
    (run [.wsMessage msgDevice, .wsMessage msgLinux]).connects.length = 1 ∧
    (run [.wsMessage msgDevice, .wsMessage msgLinux]).spawns.length = 1 ∧
    ¬((run [.wsMessage msgDevice, .wsMessage msgLinux]).driversConstructed ≤ 1) := by
  decide

/-- Claim C8 (amended): once the session is relaying — `sshStream` set
(device shell ready) or `dockerProcess` set (pty spawned) — every
further inbound message is forwarded verbatim to that driver and is
never parsed again, and no further driver is constructed; but for the
device kind, messages arriving between the handshake and shell
readiness are still parsed as handshakes and may construct a second
driver. -/
theorem C8_active_messages_forwarded (st : St) (m : ClientMsg)
    (ha : st.sshStream = true ∨ st.dockerProcess = true) :
    (step st (.wsMessage m)).driversConstructed = st.driversConstructed ∧
    (step st (.wsMessage m)).sent = st.sent ∧
    (step st (.wsMessage m)).spawns = st.spawns ∧
    (step st (.wsMessage m)).connects = st.connects ∧
    (if st.sshStream = true
      then (step st (.wsMessage m)).sshWrites = st.sshWrites ++ [m.raw]
      else (step st (.wsMessage m)).ptyWrites = st.ptyWrites ++ [m.raw]) := by
  by_cases hss : st.sshStream = true
  · simp [step, hss]
  · have hd : st.dockerProcess = true := by
      rcases ha with h | h
      · exact absurd h hss
      · exact h
    have hss' : st.sshStream = false := by
      revert hss; cases hb : st.sshStream <;> simp
    simp [step, hss', hd]

/-- Witness for the amended C8: a pty session forwards even a message
that would parse as a handshake. -/
theorem C8_active_messages_forwarded_witness :
    (({ initSt with dockerProcess := true } : St).sshStream = true ∨
      ({ initSt with dockerProcess := true } : St).dockerProcess = true) ∧
    ((step { initSt with dockerProcess := true } (.wsMessage msgLinux)).driversConstructed
        = ({ initSt with dockerProcess := true } : St).driversConstructed ∧
      (step { initSt with dockerProcess := true } (.wsMessage msgLinux)).sent
        = ({ initSt with dockerProcess := true } : St).sent ∧
      (step { initSt with dockerProcess := true } (.wsMessage msgLinux)).spawns
        = ({ initSt with dockerProcess := true } : St).spawns ∧
      (step { initSt with dockerProcess := true } (.wsMessage msgLinux)).connects
        = ({ initSt with dockerProcess := true } : St).connects ∧
      (if ({ initSt with dockerProcess := true } : St).sshStream = true
        then (step { initSt with dockerProcess := true } (.wsMessage msgLinux)).sshWrites
            = ({ initSt with dockerProcess := true } : St).sshWrites ++ [msgLinux.raw]
        else (step { initSt with dockerProcess := true } (.wsMessage msgLinux)).ptyWrites
            = ({ initSt with dockerProcess := true } : St).ptyWrites ++ [msgLinux.raw])) :=
  ⟨Or.inr rfl,
    C8_active_messages_forwarded { initSt with dockerProcess := true } msgLinux (Or.inr rfl)⟩

/-- Claim C9 is false as stated: a device handshake requesting 120×40
leads to a shell request carrying only the terminal type — the shell
channel is not sized to the requested geometry. -/
theorem C9_shell_geometry_counterexample :
    (run [.wsMessage msgDevice, .sshReady none]).shells = [deviceShellOpts] ∧
    deviceShellOpts.cols = none ∧ deviceShellOpts.rows = none ∧
    ¬((run [.wsMessage msgDevice, .sshReady none]).shells
        = [{ term := "xterm-256color", cols := some 120, rows := some 40 }]) := by decide

/-- Claim C9 (amended): columns and rows default to 80×24 when absent
and the container/vm ptys are spawned at the requested positive
geometry; the device driver, however, requests its shell channel with
only the terminal type — no geometry at all. -/
theorem C9_geometry_behavior (st : St) (h : Handshake) (c r : Nat)
    (hssh : st.sshClientActive = true)
    (hc : h.cols = some c) (hc0 : c ≠ 0) (hr : h.rows = some r) (hr0 : r ≠ 0) :
    (dockerSpawn { h with cols := none, rows := none }).opts.cols = 80 ∧
    (dockerSpawn { h with cols := none, rows := none }).opts.rows = 24 ∧
    (sonicSpawn { h with cols := none, rows := none }).opts.cols = 80 ∧
    (sonicSpawn { h with cols := none, rows := none }).opts.rows = 24 ∧
    (dockerSpawn h).opts.cols = c ∧
    (dockerSpawn h).opts.rows = r ∧
    (sonicSpawn h).opts.cols = c ∧
    (sonicSpawn h).opts.rows = r ∧
    (step st (.sshReady none)).shells = st.shells ++ [deviceShellOpts] ∧
    deviceShellOpts.cols = none ∧ deviceShellOpts.rows = none := by
  simp [dockerSpawn, sonicSpawn, colsOrDefault, rowsOrDefault, hc, hr, hc0, hr0,
        step, hssh, deviceShellOpts]

/-- Witness for the amended C9 at the 120×40 device handshake. -/
theorem C9_geometry_behavior_witness :
    (({ initSt with sshClientActive := true } : St).sshClientActive = true ∧
      deviceHandshake.cols = some 120 ∧ (120 : Nat) ≠ 0 ∧
      deviceHandshake.rows = some 40 ∧ (40 : Nat) ≠ 0) ∧
    ((dockerSpawn { deviceHandshake with cols := none, rows := none }).opts.cols = 80 ∧
      (dockerSpawn { deviceHandshake with cols := none, rows := none }).opts.rows = 24 ∧
      (sonicSpawn { deviceHandshake with cols := none, rows := none }).opts.cols = 80 ∧
      (sonicSpawn { deviceHandshake with cols := none, rows := none }).opts.rows = 24 ∧
      (dockerSpawn deviceHandshake).opts.cols = 120 ∧
      (dockerSpawn deviceHandshake).opts.rows = 40 ∧
      (sonicSpawn deviceHandshake).opts.cols = 120 ∧
      (sonicSpawn deviceHandshake).opts.rows = 40 ∧
      (step { initSt with sshClientActive := true } (.sshReady none)).shells
          = ({ initSt with sshClientActive := true } : St).shells ++ [deviceShellOpts] ∧
      deviceShellOpts.cols = none ∧ deviceShellOpts.rows = none) :=
  ⟨⟨rfl, rfl, by decide, rfl, by decide⟩,
    C9_geometry_behavior { initSt with sshClientActive := true } deviceHandshake 120 40
      rfl rfl (by decide) rfl (by decide)⟩

end ClabBridge
